import Mathlib

/-!
Shallow embedding of the session / access-token lifecycle of the
Ai-music-player backend (Express + Mongoose).  The embedded code is:

* the auth router (`routes/auth.js`, second document of `src/unnamed/part_014`):
  `signAccessToken`, `signRefreshToken`, `isLocked`, the `/login` handler and
  the `/refresh` handler;
* the auth middleware (`middleware/auth.js`, `src/unnamed/part_015`);
* the media router (`src/routes/music.js`): `signStreamToken`,
  `verifyStreamToken`, the `/stream/:id` handler, and the public song views
  (`/`, `/search`, `/album/:albumName`, upload confirmation).

Modelling conventions:
* Times are absolute milliseconds (`Nat`).  `jwt.sign`/`jwt.verify` are
  modelled ideally: a signed token is a record carrying its payload, the
  secret used to sign it, and its absolute expiry; verification succeeds iff
  the verifying secret equals the signing secret and the token is unexpired
  (`now < exp`), exactly the two checks `jwt.verify` performs.
* SHA-256 (`crypto.createHash("sha256")`) is modelled as an injective tag on
  the serialized token string; the handlers only ever compare hash values for
  equality.
* Database effects (`User.findById`, `User.findOne`, `Song.findById`,
  `fetch`) are passed to each handler as explicit function arguments, and a
  handler's single `save()` is returned as the `savedUser` field of its
  response record.
-/

namespace AiMusic

/-! ## Data model (models/User.js, models/Song.js) -/

/-- `RefreshTokenSchema`: tokenHash, expiresAt, and provenance metadata. -/
structure RefreshTokenRecord where
  tokenHash : String
  expiresAt : Nat
  ip : Option String
  userAgent : Option String
deriving DecidableEq

/-- `UserSchema`: the fields the session core reads and writes. -/
structure UserAccount where
  id : String
  username : String
  passwordHash : String
  roles : List String
  failedLoginAttempts : Nat
  lockUntil : Option Nat
  refreshTokens : List RefreshTokenRecord
deriving DecidableEq

/-- `SongSchema` (routes/music.js variant): `url` and `publicId` are the
private backing reference (Cloudinary), marked `select: false` / stripped at
every response site. -/
structure Song where
  id : String
  title : String
  artist : String
  album : String
  cover : String
  uploadedBy : String
  url : String
  publicId : String
deriving DecidableEq

/-! ## Ideal JWT model -/

/-- Claims embedded by `signAccessToken`: `sub`, `username`, `roles`. -/
structure AccessPayload where
  sub : String
  username : String
  roles : List String
deriving DecidableEq

/-- A signed access token: payload, signing secret, absolute expiry (ms). -/
structure AccessToken where
  payload : AccessPayload
  secret : String
  exp : Nat
deriving DecidableEq

/-- Claims embedded by `signRefreshToken`: `sub` and the per-issuance `jti`. -/
structure RefreshPayload where
  sub : String
  jti : String
deriving DecidableEq

/-- A signed refresh token: payload, signing secret, absolute expiry (ms). -/
structure RefreshToken where
  payload : RefreshPayload
  secret : String
  exp : Nat
deriving DecidableEq

/-- Claims embedded by `signStreamToken`: `sub` (user) and `sid` (song id). -/
structure StreamPayload where
  sub : String
  sid : String
deriving DecidableEq

/-- A signed stream token: payload, signing secret, absolute expiry (ms). -/
structure StreamToken where
  payload : StreamPayload
  secret : String
  exp : Nat
deriving DecidableEq

/-- `ACCESS_TTL_SECONDS = 15 * 60` (routes/auth.js). -/
def ACCESS_TTL_SECONDS : Nat := 15 * 60

/-- `REFRESH_TTL_MS = 7 * 24 * 60 * 60 * 1000` (routes/auth.js). -/
def REFRESH_TTL_MS : Nat := 7 * 24 * 60 * 60 * 1000

/-- Lock window used by the `/login` failure path: 15 minutes in ms. -/
def LOCK_DURATION_MS : Nat := 15 * 60 * 1000

/-- `jwt.verify(token, secret)` for access tokens: the secret must match and
the token must be unexpired. -/
def jwtVerifyAccess (t : AccessToken) (secret : String) (now : Nat) :
    Option AccessPayload :=
  if t.secret = secret ∧ now < t.exp then some t.payload else none

/-- `jwt.verify(token, secret)` for refresh tokens. -/
def jwtVerifyRefresh (t : RefreshToken) (secret : String) (now : Nat) :
    Option RefreshPayload :=
  if t.secret = secret ∧ now < t.exp then some t.payload else none

/-- `jwt.verify(token, secret)` for stream tokens (`verifyStreamToken`). -/
def jwtVerifyStream (t : StreamToken) (secret : String) (now : Nat) :
    Option StreamPayload :=
  if t.secret = secret ∧ now < t.exp then some t.payload else none

/-- Compact serialization of a signed refresh token (the cookie string). -/
def encodeRefreshToken (t : RefreshToken) : String :=
  t.payload.sub ++ "." ++ t.payload.jti ++ "." ++ toString t.exp ++ "." ++ t.secret

/-- `crypto.createHash("sha256").update(s).digest("hex")`, modelled as an
injective tag; the code only compares the hex digests for equality. -/
def sha256hex (s : String) : String :=
  "sha256:" ++ s

/-- `signAccessToken(user)` (routes/auth.js): embeds sub, username, roles;
`expiresIn: ACCESS_TTL_SECONDS`. -/
def signAccessToken (accessSecret : String) (now : Nat) (user : UserAccount) :
    AccessToken :=
  { payload := { sub := user.id, username := user.username, roles := user.roles }
    secret := accessSecret
    exp := now + ACCESS_TTL_SECONDS * 1000 }

/-- `signRefreshToken(user, jti)` (routes/auth.js): embeds sub and jti;
`expiresIn: REFRESH_TTL_MS / 1000`. -/
def signRefreshToken (refreshSecret : String) (now : Nat) (user : UserAccount)
    (jti : String) : RefreshToken :=
  { payload := { sub := user.id, jti := jti }
    secret := refreshSecret
    exp := now + REFRESH_TTL_MS }

/-- `signStreamToken(userId, songId, ttlSeconds)` (routes/music.js). -/
def signStreamToken (streamSecret : String) (now : Nat) (userId songId : String)
    (ttlSeconds : Nat) : StreamToken :=
  { payload := { sub := userId, sid := songId }
    secret := streamSecret
    exp := now + ttlSeconds * 1000 }

/-! ## Login handler (routes/auth.js, `router.post("/login")`) -/

/-- `isLocked(user)`: `user.lockUntil && user.lockUntil > new Date()`. -/
def isLocked (user : UserAccount) (now : Nat) : Bool :=
  match user.lockUntil with
  | some l => now < l
  | none => false

/-- Everything the `/login` handler sends or persists. -/
structure LoginResponse where
  status : Nat
  error : Option String
  message : Option String
  setAccessCookie : Option AccessToken
  setRefreshCookie : Option RefreshToken
  savedUser : Option UserAccount
deriving DecidableEq

/-- The `/login` handler, from `const user = await User.findOne({ username })`
onward.  `argon2verify` stands for `argon2.verify(storedHash, password)`,
`findByUsername` for `User.findOne`; `jti` is the `crypto.randomUUID()` drawn
on the success path, `ip`/`ua` the request provenance. -/
def handleLogin (accessSecret refreshSecret : String)
    (argon2verify : String → String → Bool) (now : Nat)
    (findByUsername : String → Option UserAccount)
    (username password jti ip ua : String) : LoginResponse :=
  match findByUsername username with
  | none =>
      { status := 401, error := some "Invalid credentials", message := none
        setAccessCookie := none, setRefreshCookie := none, savedUser := none }
  | some user =>
      if isLocked user now then
        { status := 403, error := some "Account temporarily locked. Try later."
          message := none, setAccessCookie := none, setRefreshCookie := none
          savedUser := none }
      else if argon2verify user.passwordHash password then
        let refreshToken := signRefreshToken refreshSecret now user jti
        let accessToken := signAccessToken accessSecret now user
        let rtHash := sha256hex (encodeRefreshToken refreshToken)
        let expiresAt := now + REFRESH_TTL_MS
        let saved : UserAccount :=
          { user with
              failedLoginAttempts := 0
              lockUntil := none
              refreshTokens := user.refreshTokens ++
                [{ tokenHash := rtHash, expiresAt := expiresAt
                   ip := some ip, userAgent := some ua }] }
        { status := 200, error := none, message := some "Login successful"
          setAccessCookie := some accessToken
          setRefreshCookie := some refreshToken
          savedUser := some saved }
      else
        let attempts := user.failedLoginAttempts + 1
        let saved : UserAccount :=
          if 5 ≤ attempts then
            { user with failedLoginAttempts := 0
                        lockUntil := some (now + LOCK_DURATION_MS) }
          else
            { user with failedLoginAttempts := attempts }
        { status := 401, error := some "Invalid credentials", message := none
          setAccessCookie := none, setRefreshCookie := none
          savedUser := some saved }

/-! ## Refresh handler (routes/auth.js, `router.post("/refresh")`) -/

/-- Everything the `/refresh` handler sends or persists. -/
structure RefreshResponse where
  status : Nat
  error : Option String
  ok : Bool
  clearAccessCookie : Bool
  clearRefreshCookie : Bool
  setAccessCookie : Option AccessToken
  setRefreshCookie : Option RefreshToken
  savedUser : Option UserAccount
deriving DecidableEq

/-- 401 `Unauthorized` response of `/refresh` (missing cookie, bad signature
or expiry, unknown account). -/
def refreshUnauthorized : RefreshResponse :=
  { status := 401, error := some "Unauthorized", ok := false
    clearAccessCookie := false, clearRefreshCookie := false
    setAccessCookie := none, setRefreshCookie := none, savedUser := none }

/-- The `/refresh` handler.  `cookie` is the `refresh_token` cookie,
`findById` stands for `User.findById`, `newJti` for the fresh
`crypto.randomUUID()`, `ip`/`ua` for the request provenance. -/
def handleRefresh (refreshSecret accessSecret : String) (now : Nat)
    (cookie : Option RefreshToken) (findById : String → Option UserAccount)
    (ip ua newJti : String) : RefreshResponse :=
  match cookie with
  | none => refreshUnauthorized
  | some rt =>
    match jwtVerifyRefresh rt refreshSecret now with
    | none => refreshUnauthorized
    | some payload =>
      match findById payload.sub with
      | none => refreshUnauthorized
      | some user =>
        let presentedHash := sha256hex (encodeRefreshToken rt)
        match user.refreshTokens.find?
            (fun t => t.tokenHash == presentedHash && decide (now < t.expiresAt)) with
        | none =>
            -- reuse detection: wipe the registry, clear cookies, 401.
            { status := 401, error := some "Session invalidated", ok := false
              clearAccessCookie := true, clearRefreshCookie := true
              setAccessCookie := none, setRefreshCookie := none
              savedUser := some { user with refreshTokens := [] } }
        | some _ =>
            -- rotation: remove old record, mint and store the replacement.
            let kept := user.refreshTokens.filter
              (fun t => t.tokenHash != presentedHash)
            let newRefreshToken := signRefreshToken refreshSecret now user newJti
            let newAccessToken := signAccessToken accessSecret now user
            let newHash := sha256hex (encodeRefreshToken newRefreshToken)
            let expiresAt := now + REFRESH_TTL_MS
            let saved : UserAccount :=
              { user with refreshTokens := kept ++
                  [{ tokenHash := newHash, expiresAt := expiresAt
                     ip := some ip, userAgent := some ua }] }
            { status := 200, error := none, ok := true
              clearAccessCookie := false, clearRefreshCookie := false
              setAccessCookie := some newAccessToken
              setRefreshCookie := some newRefreshToken
              savedUser := some saved }

/-! ## Auth middleware (middleware/auth.js) -/

/-- The `req.user` object the middleware attaches on success. -/
structure ReqUser where
  id : String
  username : String
  roles : List String
deriving DecidableEq

/-- Outcome of the middleware: 401, or `next()` with `req.user` set. -/
inductive AuthResult where
  | unauthorized : AuthResult
  | proceed : ReqUser → AuthResult
deriving DecidableEq

/-- `header.split(" ")` over the character list: split at every single
space character, keeping empty segments (JavaScript `String.split`). -/
def splitSpacesAux (acc : List Char) : List Char → List String
  | [] => [String.mk acc.reverse]
  | c :: cs =>
    if c = ' ' then String.mk acc.reverse :: splitSpacesAux [] cs
    else splitSpacesAux (c :: acc) cs

/-- `s.split(" ")` of JavaScript. -/
def splitSpaces (s : String) : List String :=
  splitSpacesAux [] s.toList

/-- Extraction of the bearer token from the `Authorization` header:
`parts = header.split(" ")`, accepted iff `parts.length === 2 &&
parts[0] === "Bearer"`, yielding `parts[1]`. -/
def bearerTokenOf (header : String) : Option String :=
  let parts := splitSpaces header
  if parts.length = 2 ∧ parts.headD "" = "Bearer" then
    some (parts.getD 1 "")
  else none

/-- `authMiddleware`: token from the `access_token` cookie, else from a
`Bearer` Authorization header; verified with the access secret; on success
`req.user = { id: payload.sub, username: payload.username,
roles: payload.roles || [] }`.  `decode` maps a compact token string back to
the signed token it denotes (the inverse of JWT serialization). -/
def authMiddleware (accessSecret : String) (now : Nat)
    (decode : String → Option AccessToken)
    (cookieToken : Option AccessToken) (authHeader : Option String) :
    AuthResult :=
  let token : Option AccessToken :=
    match cookieToken with
    | some t => some t
    | none =>
      match authHeader with
      | some h => (bearerTokenOf h).bind decode
      | none => none
  match token with
  | none => AuthResult.unauthorized
  | some t =>
    match jwtVerifyAccess t accessSecret now with
    | none => AuthResult.unauthorized
    | some payload =>
        AuthResult.proceed
          { id := payload.sub, username := payload.username
            roles := payload.roles }

/-! ## Media proxy (routes/music.js, `router.get("/stream/:id")`) -/

/-- What `fetch(song.url, { headers })` returns: `ok`, `status`, the three
headers the handler reads, and the byte stream. -/
structure UpstreamResponse where
  ok : Bool
  status : Nat
  contentType : Option String
  contentLength : Option String
  contentRange : Option String
  body : List Nat
deriving DecidableEq

/-- The handler's client-facing outcome: a JSON error, or headers plus the
relayed byte stream. -/
inductive StreamResult where
  | errorResp : Nat → String → StreamResult
  | streamResp : Nat → List (String × String) → List Nat → StreamResult
deriving DecidableEq

/-- Response status of the relay:
`clientRange && contentRange ? 206 : 200`. -/
def streamStatus (clientRange : Option String) (up : UpstreamResponse) : Nat :=
  if clientRange.isSome && up.contentRange.isSome then 206 else 200

/-- The headers the relay sets: content type (default `audio/mpeg`),
conditional length and range, and the fixed no-cache / no-sniff block. -/
def streamHeaders (up : UpstreamResponse) : List (String × String) :=
  [("Content-Type", up.contentType.getD "audio/mpeg")] ++
  (match up.contentLength with
   | some cl => [("Content-Length", cl)]
   | none => []) ++
  (match up.contentRange with
   | some cr => [("Content-Range", cr)]
   | none => []) ++
  [("Accept-Ranges", "bytes"),
   ("Cache-Control", "no-store, no-cache, must-revalidate, private"),
   ("Pragma", "no-cache"),
   ("Expires", "0"),
   ("Content-Disposition", "inline"),
   ("X-Content-Type-Options", "nosniff")]

/-- The authorization phase of `/stream/:id`: a presented stream token is
checked first (signature/expiry, then the media binding `payload.sid === id`);
with no stream token the handler falls back to `authMiddleware`.  `Sum.inr`
is an early error response, `Sum.inl` the authorized user id. -/
def streamAuth (streamSecret accessSecret : String) (now : Nat)
    (queryToken : Option StreamToken)
    (decode : String → Option AccessToken)
    (cookieToken : Option AccessToken) (authHeader : Option String)
    (id : String) : Option String ⊕ StreamResult :=
  match queryToken with
  | some tok =>
    match jwtVerifyStream tok streamSecret now with
    | none => Sum.inr (StreamResult.errorResp 401 "Invalid or expired stream token")
    | some payload =>
      if payload.sid = id then Sum.inl (some payload.sub)
      else Sum.inr (StreamResult.errorResp 403 "Invalid stream token")
  | none =>
    match authMiddleware accessSecret now decode cookieToken authHeader with
    | AuthResult.unauthorized => Sum.inr (StreamResult.errorResp 401 "Unauthorized")
    | AuthResult.proceed u => Sum.inl (some u.id)

/-- The relay step of `/stream/:id`: gate on the upstream result, then mirror
status, headers and body. -/
def streamRelay (up : UpstreamResponse) (clientRange : Option String) :
    StreamResult :=
  if up.ok = false ∧ up.status ≠ 206 then
    StreamResult.errorResp 502 "Failed to fetch audio"
  else
    StreamResult.streamResp (streamStatus clientRange up)
      (streamHeaders up) up.body

/-- The serving phase of `/stream/:id` after authorization: reject an empty
user id, locate the song and its private url, fetch (forwarding the client's
Range header), and relay. -/
def streamServe (findSong : String → Option Song)
    (fetchUrl : String → Option String → UpstreamResponse)
    (id : String) (clientRange : Option String) (userId : Option String) :
    StreamResult :=
  if (userId.getD "").isEmpty then
    StreamResult.errorResp 401 "Unauthorized - no valid token"
  else
    match findSong id with
    | none => StreamResult.errorResp 404 "Song not found"
    | some song =>
      if song.url.isEmpty then
        StreamResult.errorResp 404 "Song not found"
      else
        streamRelay (fetchUrl song.url clientRange) clientRange

/-- The `/stream/:id` handler.  `queryToken` is `req.query.t`; `findSong`
stands for `Song.findById(id).select("+url")`, `fetchUrl` for
`fetch(url, { headers })` where the second argument is the forwarded `Range`
header (exactly the client's when present). -/
def handleStream (streamSecret accessSecret : String) (now : Nat)
    (queryToken : Option StreamToken)
    (decode : String → Option AccessToken)
    (cookieToken : Option AccessToken) (authHeader : Option String)
    (findSong : String → Option Song)
    (fetchUrl : String → Option String → UpstreamResponse)
    (id : String) (clientRange : Option String) : StreamResult :=
  match streamAuth streamSecret accessSecret now queryToken decode cookieToken
      authHeader id with
  | Sum.inr r => r
  | Sum.inl userId => streamServe findSong fetchUrl id clientRange userId

/-! ## Public song views (routes/music.js: list, search, album, upload) -/

/-- `doc.toObject()`: every schema field of a Song as key/value pairs. -/
def songObject (s : Song) : List (String × String) :=
  [("_id", s.id), ("title", s.title), ("artist", s.artist),
   ("album", s.album), ("cover", s.cover), ("uploadedBy", s.uploadedBy),
   ("url", s.url), ("publicId", s.publicId)]

/-- Mongoose `.select("-url -publicId")`: the projection drops the excluded
paths from each returned document. -/
def selectWithout (excluded : List String) (fields : List (String × String)) :
    List (String × String) :=
  fields.filter (fun kv => !(excluded.contains kv.1))

/-- The rendering of one song in the list / search / album responses. -/
def publicSongView (s : Song) : List (String × String) :=
  selectWithout ["url", "publicId"] (songObject s)

/-- `GET /` body: all songs, url and publicId deselected. -/
def listSongsBody (db : List Song) : List (List (String × String)) :=
  db.map publicSongView

/-- Case-folded prefix test used to embed the `$regex ... $options: "i"`
match (substring, case-insensitive). -/
def charsStartWith : List Char → List Char → Bool
  | [], _ => true
  | _ :: _, [] => false
  | n :: ns, h :: hs => n == h && charsStartWith ns hs

/-- Substring occurrence over character lists. -/
def charsContain (hay needle : List Char) : Bool :=
  match hay with
  | [] => needle.isEmpty
  | _ :: rest => charsStartWith needle hay || charsContain rest needle

/-- `{ $regex: q, $options: "i" }` on a plain-text query: case-insensitive
substring match. -/
def matchesCI (field q : String) : Bool :=
  charsContain field.toLower.toList q.toLower.toList

/-- The `$or` filter of `GET /search` over title, artist, album. -/
def matchesQuery (q : String) (s : Song) : Bool :=
  matchesCI s.title q || matchesCI s.artist q || matchesCI s.album q

/-- `GET /search` body: empty query short-circuits to `[]`, otherwise the
filtered songs with url and publicId deselected. -/
def searchSongsBody (db : List Song) (q : String) :
    List (List (String × String)) :=
  if q.trim.isEmpty then []
  else (db.filter (matchesQuery q.trim)).map publicSongView

/-- `GET /album/:albumName`: 404 when no songs match, else the album view
with url and publicId deselected. -/
def albumSongsBody (db : List Song) (albumName : String) :
    Option (List (List (String × String))) :=
  let songs := (db.filter (fun s => s.album == albumName)).map publicSongView
  if songs.isEmpty then none else some songs

/-- Upload confirmation body: `toObject()` with
`delete songResponse.url; delete songResponse.publicId`. -/
def uploadSongBody (newSong : Song) : List (String × String) :=
  (songObject newSong).filter (fun kv => kv.1 != "url" && kv.1 != "publicId")

/-! ## Sample data for concrete evaluations -/

/-- A sample account used to instantiate the theorems. -/
def alice : UserAccount :=
  { id := "u1", username := "alice", passwordHash := "ph", roles := ["user"]
    failedLoginAttempts := 0, lockUntil := none
    refreshTokens := [{ tokenHash := "sha256:u1.j0.100.rs", expiresAt := 900
                        ip := none, userAgent := none }] }

/-- A sample song with a private backing url. -/
def demoSong : Song :=
  { id := "s1", title := "Tune", artist := "Band", album := "Singles"
    cover := "c", uploadedBy := "u1"
    url := "https://res.cloudinary.example/private/s1.mp3", publicId := "songs/s1" }

/-! ## Claims -/

/-- Claim C5: verifying an access token produced by `signAccessToken` for an
account, with the same access secret and before expiry, succeeds and recovers
exactly the subject id, username, and roles that were embedded. -/
theorem access_token_roundtrip (accessSecret : String) (iat now : Nat)
    (user : UserAccount) (decode : String → Option AccessToken)
    (hexp : now < iat + ACCESS_TTL_SECONDS * 1000) :
    authMiddleware accessSecret now decode
        (some (signAccessToken accessSecret iat user)) none
      = AuthResult.proceed
          { id := user.id, username := user.username, roles := user.roles } := by
  simp [authMiddleware, signAccessToken, jwtVerifyAccess, hexp]

/-- Concrete instance of `access_token_roundtrip`. -/
theorem access_token_roundtrip_witness :
    (1000 : Nat) < 500 + ACCESS_TTL_SECONDS * 1000 ∧
    authMiddleware "as" 1000 (fun _ => none)
        (some (signAccessToken "as" 500 alice)) none
      = AuthResult.proceed { id := "u1", username := "alice", roles := ["user"] } :=
  ⟨by decide, access_token_roundtrip "as" 500 1000 alice (fun _ => none) (by decide)⟩

/-- Claim C10: when no `access_token` cookie is present, a token presented as
`Authorization: Bearer <token>` is accepted: if it verifies under the access
secret the middleware proceeds with the token's subject id, username, and
roles. -/
theorem bearer_header_accepted (accessSecret : String) (now : Nat)
    (decode : String → Option AccessToken) (h s : String) (t : AccessToken)
    (hsplit : splitSpaces h = ["Bearer", s])
    (hdec : decode s = some t)
    (hsec : t.secret = accessSecret) (hexp : now < t.exp) :
    authMiddleware accessSecret now decode none (some h)
      = AuthResult.proceed
          { id := t.payload.sub, username := t.payload.username
            roles := t.payload.roles } := by
  simp [authMiddleware, bearerTokenOf, hsplit, hdec, jwtVerifyAccess, hsec, hexp]

/-- Concrete instance of `bearer_header_accepted`. -/
theorem bearer_header_accepted_witness :
    (splitSpaces "Bearer tok1" = ["Bearer", "tok1"]) ∧
    ((fun x => if x = "tok1"
        then some (signAccessToken "as" 500 alice) else none) "tok1"
      = some (signAccessToken "as" 500 alice)) ∧
    (signAccessToken "as" 500 alice).secret = "as" ∧
    (1000 : Nat) < (signAccessToken "as" 500 alice).exp ∧
    authMiddleware "as" 1000
        (fun x => if x = "tok1"
          then some (signAccessToken "as" 500 alice) else none)
        none (some "Bearer tok1")
      = AuthResult.proceed
          { id := (signAccessToken "as" 500 alice).payload.sub
            username := (signAccessToken "as" 500 alice).payload.username
            roles := (signAccessToken "as" 500 alice).payload.roles } :=
  ⟨by decide, by decide, by decide, by decide,
   bearer_header_accepted "as" 1000
     (fun x => if x = "tok1" then some (signAccessToken "as" 500 alice) else none)
     "Bearer tok1" "tok1" (signAccessToken "as" 500 alice)
     (by decide) (by decide) (by decide) (by decide)⟩

/-- Claim C6: a stream token issued for media id A, presented on a stream
request for media id B with A different from B, is rejected with the 403
media-mismatch response even before expiry and with a valid signature, and no
media bytes are served. -/
theorem stream_token_media_mismatch (streamSecret accessSecret : String)
    (now now0 ttl : Nat) (uid A B : String)
    (decode : String → Option AccessToken)
    (cookieToken : Option AccessToken) (authHeader : Option String)
    (findSong : String → Option Song)
    (fetchUrl : String → Option String → UpstreamResponse)
    (clientRange : Option String)
    (hne : A ≠ B) (hexp : now < now0 + ttl * 1000) :
    handleStream streamSecret accessSecret now
        (some (signStreamToken streamSecret now0 uid A ttl))
        decode cookieToken authHeader findSong fetchUrl B clientRange
      = StreamResult.errorResp 403 "Invalid stream token" ∧
    ∀ st hs b,
      handleStream streamSecret accessSecret now
          (some (signStreamToken streamSecret now0 uid A ttl))
          decode cookieToken authHeader findSong fetchUrl B clientRange
        ≠ StreamResult.streamResp st hs b := by
  have h1 : handleStream streamSecret accessSecret now
      (some (signStreamToken streamSecret now0 uid A ttl))
      decode cookieToken authHeader findSong fetchUrl B clientRange
      = StreamResult.errorResp 403 "Invalid stream token" := by
    simp [handleStream, streamAuth, signStreamToken, jwtVerifyStream, hexp, hne]
  exact ⟨h1, fun st hs b => by simp [h1]⟩

/-- Concrete instance of `stream_token_media_mismatch`. -/
theorem stream_token_media_mismatch_witness :
    ("sA" : String) ≠ "sB" ∧ (500 : Nat) < 450 + 60 * 1000 ∧
    handleStream "ss" "as" 500 (some (signStreamToken "ss" 450 "u1" "sA" 60))
        (fun _ => none) none none (fun _ => none)
        (fun _ _ => { ok := true, status := 200, contentType := none
                      contentLength := none, contentRange := none, body := [] })
        "sB" none
      = StreamResult.errorResp 403 "Invalid stream token" :=
  ⟨by decide, by decide,
   (stream_token_media_mismatch "ss" "as" 500 450 60 "u1" "sA" "sB"
     (fun _ => none) none none (fun _ => none)
     (fun _ _ => { ok := true, status := 200, contentType := none
                   contentLength := none, contentRange := none, body := [] })
     none (by decide) (by decide)).1⟩

/-- Claim C7: a failed login naming an unknown username and a failed login
naming an existing, unlocked account with a wrong password produce the same
status code and the same client-visible error message. -/
theorem login_enumeration_resistant (accessSecret refreshSecret : String)
    (argon2verify : String → String → Bool) (now : Nat)
    (findByUsername : String → Option UserAccount)
    (u1 p1 u2 p2 jti ip ua : String) (user : UserAccount)
    (h1 : findByUsername u1 = none)
    (h2 : findByUsername u2 = some user)
    (hnl : isLocked user now = false)
    (hwrong : argon2verify user.passwordHash p2 = false) :
    (handleLogin accessSecret refreshSecret argon2verify now findByUsername
        u1 p1 jti ip ua).status
      = (handleLogin accessSecret refreshSecret argon2verify now findByUsername
          u2 p2 jti ip ua).status ∧
    (handleLogin accessSecret refreshSecret argon2verify now findByUsername
        u1 p1 jti ip ua).error
      = (handleLogin accessSecret refreshSecret argon2verify now findByUsername
          u2 p2 jti ip ua).error ∧
    (handleLogin accessSecret refreshSecret argon2verify now findByUsername
        u1 p1 jti ip ua).status = 401 := by
  simp [handleLogin, h1, h2, hnl, hwrong]

/-- Concrete instance of `login_enumeration_resistant`. -/
theorem login_enumeration_resistant_witness :
    ((fun u => if u = "alice" then some alice else none) "ghost"
        = (none : Option UserAccount)) ∧
    ((fun u => if u = "alice" then some alice else none) "alice" = some alice) ∧
    isLocked alice 100 = false ∧
    ((fun _ _ => false) alice.passwordHash "wrongpw") = false ∧
    ((handleLogin "as" "rs" (fun _ _ => false) 100
        (fun u => if u = "alice" then some alice else none)
        "ghost" "x" "j" "i" "a").status
      = (handleLogin "as" "rs" (fun _ _ => false) 100
          (fun u => if u = "alice" then some alice else none)
          "alice" "wrongpw" "j" "i" "a").status ∧
     (handleLogin "as" "rs" (fun _ _ => false) 100
        (fun u => if u = "alice" then some alice else none)
        "ghost" "x" "j" "i" "a").error
      = (handleLogin "as" "rs" (fun _ _ => false) 100
          (fun u => if u = "alice" then some alice else none)
          "alice" "wrongpw" "j" "i" "a").error ∧
     (handleLogin "as" "rs" (fun _ _ => false) 100
        (fun u => if u = "alice" then some alice else none)
        "ghost" "x" "j" "i" "a").status = 401) :=
  ⟨by decide, by decide, by decide, by decide,
   login_enumeration_resistant "as" "rs" (fun _ _ => false) 100
     (fun u => if u = "alice" then some alice else none)
     "ghost" "x" "alice" "wrongpw" "j" "i" "a" alice
     (by decide) (by decide) (by decide) (by decide)⟩

/-- Claim C3: for an account that is not currently locked, each failed
credential check increments `failedLoginAttempts` by one, and when the counter
reaches 5 the account is locked for 15 minutes with the counter reset to 0;
while `now < lockUntil`, every login attempt — whatever the credential checker
would answer, so including a correct password — is rejected 403
account-locked with no state change and no credential check consumed. -/
theorem login_lockout_machine (accessSecret refreshSecret : String)
    (argon2verify : String → String → Bool) (now : Nat)
    (findByUsername : String → Option UserAccount)
    (username password jti ip ua : String) (user : UserAccount)
    (hfind : findByUsername username = some user) :
    (isLocked user now = false →
      argon2verify user.passwordHash password = false →
      (handleLogin accessSecret refreshSecret argon2verify now findByUsername
          username password jti ip ua).status = 401 ∧
      (handleLogin accessSecret refreshSecret argon2verify now findByUsername
          username password jti ip ua).error = some "Invalid credentials" ∧
      (user.failedLoginAttempts + 1 < 5 →
        (handleLogin accessSecret refreshSecret argon2verify now findByUsername
            username password jti ip ua).savedUser
          = some { user with
                     failedLoginAttempts := user.failedLoginAttempts + 1 }) ∧
      (5 ≤ user.failedLoginAttempts + 1 →
        (handleLogin accessSecret refreshSecret argon2verify now findByUsername
            username password jti ip ua).savedUser
          = some { user with
                     failedLoginAttempts := 0
                     lockUntil := some (now + LOCK_DURATION_MS) })) ∧
    (∀ l, user.lockUntil = some l → now < l →
      ∀ check : String → String → Bool,
        (handleLogin accessSecret refreshSecret check now findByUsername
            username password jti ip ua).status = 403 ∧
        (handleLogin accessSecret refreshSecret check now findByUsername
            username password jti ip ua).error
          = some "Account temporarily locked. Try later." ∧
        (handleLogin accessSecret refreshSecret check now findByUsername
            username password jti ip ua).savedUser = none) := by
  constructor
  · intro hnl hwrong
    refine ⟨?_, ?_, ?_, ?_⟩
    · simp [handleLogin, hfind, hnl, hwrong]
    · simp [handleLogin, hfind, hnl, hwrong]
    · intro hlt
      have h5 : ¬ (5 ≤ user.failedLoginAttempts + 1) := by omega
      simp [handleLogin, hfind, hnl, hwrong, h5]
    · intro hge
      simp [handleLogin, hfind, hnl, hwrong, hge]
  · intro l hl hlt check
    have hlock : isLocked user now = true := by simp [isLocked, hl, hlt]
    refine ⟨?_, ?_, ?_⟩ <;> simp [handleLogin, hfind, hlock]

/-- Concrete instance of `login_lockout_machine` at an account with four
prior failures, so the failed check trips the lock. -/
theorem login_lockout_machine_witness :
    ((fun u => if u = "bob" then
        some { alice with username := "bob", failedLoginAttempts := 4 }
      else none) "bob"
      = some { alice with username := "bob", failedLoginAttempts := 4 }) ∧
    ((isLocked { alice with username := "bob", failedLoginAttempts := 4 } 100
        = false →
      (fun _ _ => false) alice.passwordHash "pw" = false →
      (handleLogin "as" "rs" (fun _ _ => false) 100
          (fun u => if u = "bob" then
            some { alice with username := "bob", failedLoginAttempts := 4 }
          else none) "bob" "pw" "j" "i" "a").status = 401 ∧
      (handleLogin "as" "rs" (fun _ _ => false) 100
          (fun u => if u = "bob" then
            some { alice with username := "bob", failedLoginAttempts := 4 }
          else none) "bob" "pw" "j" "i" "a").error
        = some "Invalid credentials" ∧
      ((4 : Nat) + 1 < 5 →
        (handleLogin "as" "rs" (fun _ _ => false) 100
            (fun u => if u = "bob" then
              some { alice with username := "bob", failedLoginAttempts := 4 }
            else none) "bob" "pw" "j" "i" "a").savedUser
          = some { alice with username := "bob", failedLoginAttempts := 4 + 1 }) ∧
      ((5 : Nat) ≤ 4 + 1 →
        (handleLogin "as" "rs" (fun _ _ => false) 100
            (fun u => if u = "bob" then
              some { alice with username := "bob", failedLoginAttempts := 4 }
            else none) "bob" "pw" "j" "i" "a").savedUser
          = some { alice with
                     username := "bob"
                     failedLoginAttempts := 0
                     lockUntil := some (100 + LOCK_DURATION_MS) })) ∧
     (∀ l, ({ alice with username := "bob", failedLoginAttempts := 4 }
          : UserAccount).lockUntil = some l →
        100 < l →
        ∀ check : String → String → Bool,
          (handleLogin "as" "rs" check 100
              (fun u => if u = "bob" then
                some { alice with username := "bob", failedLoginAttempts := 4 }
              else none) "bob" "pw" "j" "i" "a").status = 403 ∧
          (handleLogin "as" "rs" check 100
              (fun u => if u = "bob" then
                some { alice with username := "bob", failedLoginAttempts := 4 }
              else none) "bob" "pw" "j" "i" "a").error
            = some "Account temporarily locked. Try later." ∧
          (handleLogin "as" "rs" check 100
              (fun u => if u = "bob" then
                some { alice with username := "bob", failedLoginAttempts := 4 }
              else none) "bob" "pw" "j" "i" "a").savedUser = none)) :=
  ⟨by decide,
   login_lockout_machine "as" "rs" (fun _ _ => false) 100
     (fun u => if u = "bob" then
       some { alice with username := "bob", failedLoginAttempts := 4 }
     else none) "bob" "pw" "j" "i" "a"
     { alice with username := "bob", failedLoginAttempts := 4 } (by decide)⟩

/-- Claim C4: a login with the correct password while the account is not
currently locked succeeds, and the persisted account state has
`failedLoginAttempts = 0` and `lockUntil` cleared (with the new refresh
record appended and both tokens issued). -/
theorem login_success_resets (accessSecret refreshSecret : String)
    (argon2verify : String → String → Bool) (now : Nat)
    (findByUsername : String → Option UserAccount)
    (username password jti ip ua : String) (user : UserAccount)
    (hfind : findByUsername username = some user)
    (hnl : isLocked user now = false)
    (hok : argon2verify user.passwordHash password = true) :
    (handleLogin accessSecret refreshSecret argon2verify now findByUsername
        username password jti ip ua).status = 200 ∧
    (handleLogin accessSecret refreshSecret argon2verify now findByUsername
        username password jti ip ua).message = some "Login successful" ∧
    (handleLogin accessSecret refreshSecret argon2verify now findByUsername
        username password jti ip ua).savedUser
      = some { user with
                 failedLoginAttempts := 0
                 lockUntil := none
                 refreshTokens := user.refreshTokens ++
                   [{ tokenHash := sha256hex (encodeRefreshToken
                        (signRefreshToken refreshSecret now user jti))
                      expiresAt := now + REFRESH_TTL_MS
                      ip := some ip, userAgent := some ua }] } ∧
    (handleLogin accessSecret refreshSecret argon2verify now findByUsername
        username password jti ip ua).setAccessCookie
      = some (signAccessToken accessSecret now user) ∧
    (handleLogin accessSecret refreshSecret argon2verify now findByUsername
        username password jti ip ua).setRefreshCookie
      = some (signRefreshToken refreshSecret now user jti) := by
  refine ⟨?_, ?_, ?_, ?_, ?_⟩ <;> simp [handleLogin, hfind, hnl, hok]

/-- Concrete instance of `login_success_resets`, on an account whose previous
lock window has already passed (`lockUntil = 40 < now = 100`). -/
theorem login_success_resets_witness :
    ((fun u => if u = "alice" then
        some { alice with lockUntil := some 40, failedLoginAttempts := 2 }
      else none) "alice"
      = some { alice with lockUntil := some 40, failedLoginAttempts := 2 }) ∧
    isLocked { alice with lockUntil := some 40, failedLoginAttempts := 2 } 100
      = false ∧
    ((fun _ _ => true) alice.passwordHash "pw") = true ∧
    (handleLogin "as" "rs" (fun _ _ => true) 100
        (fun u => if u = "alice" then
          some { alice with lockUntil := some 40, failedLoginAttempts := 2 }
        else none) "alice" "pw" "j" "i" "a").status = 200 ∧
    (handleLogin "as" "rs" (fun _ _ => true) 100
        (fun u => if u = "alice" then
          some { alice with lockUntil := some 40, failedLoginAttempts := 2 }
        else none) "alice" "pw" "j" "i" "a").savedUser
      = some { alice with
                 failedLoginAttempts := 0
                 lockUntil := none
                 refreshTokens := alice.refreshTokens ++
                   [{ tokenHash := sha256hex (encodeRefreshToken
                        (signRefreshToken "rs" 100
                          { alice with lockUntil := some 40
                                       failedLoginAttempts := 2 } "j"))
                      expiresAt := 100 + REFRESH_TTL_MS
                      ip := some "i", userAgent := some "a" }] } :=
  ⟨by decide, by decide, by decide,
   (login_success_resets "as" "rs" (fun _ _ => true) 100
     (fun u => if u = "alice" then
       some { alice with lockUntil := some 40, failedLoginAttempts := 2 }
     else none) "alice" "pw" "j" "i" "a"
     { alice with lockUntil := some 40, failedLoginAttempts := 2 }
     (by decide) (by decide) (by decide)).1,
   by
     have h := (login_success_resets "as" "rs" (fun _ _ => true) 100
       (fun u => if u = "alice" then
         some { alice with lockUntil := some 40, failedLoginAttempts := 2 }
       else none) "alice" "pw" "j" "i" "a"
       { alice with lockUntil := some 40, failedLoginAttempts := 2 }
       (by decide) (by decide) (by decide)).2.2.1
     simpa using h⟩

/-- Splitting a refresh-record list length by a token-hash equality test. -/
theorem length_filter_hash_split (l : List RefreshTokenRecord) (h : String) :
    (l.filter (fun t => t.tokenHash != h)).length
      + (l.filter (fun t => t.tokenHash == h)).length = l.length := by
  induction l with
  | nil => simp
  | cons a l ih =>
    by_cases hx : a.tokenHash = h
    · simp only [List.filter_cons, hx]
      simp
      omega
    · simp only [List.filter_cons]
      simp [hx]
      omega

/-- Claim C1: a refresh request whose presented token passes signature and
expiry verification and names an existing account, but whose SHA-256 hash
matches no unexpired record of that account, empties the whole refreshTokens
collection, clears both session cookies, and answers 401 session-invalidated;
afterwards every refresh attempt against the revoked account state — with any
token whatsoever — is rejected 401. -/
theorem refresh_reuse_revokes_all (refreshSecret accessSecret : String)
    (now : Nat) (rt : RefreshToken) (findById : String → Option UserAccount)
    (user : UserAccount) (ip ua newJti : String)
    (hsec : rt.secret = refreshSecret) (hexp : now < rt.exp)
    (huser : findById rt.payload.sub = some user)
    (hnone : ∀ t ∈ user.refreshTokens,
      t.tokenHash = sha256hex (encodeRefreshToken rt) → ¬ now < t.expiresAt) :
    (handleRefresh refreshSecret accessSecret now (some rt) findById
        ip ua newJti).status = 401 ∧
    (handleRefresh refreshSecret accessSecret now (some rt) findById
        ip ua newJti).error = some "Session invalidated" ∧
    (handleRefresh refreshSecret accessSecret now (some rt) findById
        ip ua newJti).clearAccessCookie = true ∧
    (handleRefresh refreshSecret accessSecret now (some rt) findById
        ip ua newJti).clearRefreshCookie = true ∧
    (handleRefresh refreshSecret accessSecret now (some rt) findById
        ip ua newJti).savedUser = some { user with refreshTokens := [] } ∧
    (∀ (rt2 : RefreshToken) (now2 : Nat) (ip2 ua2 jti2 : String),
      (handleRefresh refreshSecret accessSecret now2 (some rt2)
          (fun _ => some { user with refreshTokens := [] })
          ip2 ua2 jti2).status = 401) := by
  have hfind : user.refreshTokens.find?
      (fun t => t.tokenHash == sha256hex (encodeRefreshToken rt)
        && decide (now < t.expiresAt)) = none := by
    apply List.find?_eq_none.mpr
    intro t ht
    simp only [Bool.and_eq_true, beq_iff_eq, decide_eq_true_eq, not_and]
    exact hnone t ht
  refine ⟨?_, ?_, ?_, ?_, ?_, ?_⟩
  · simp [handleRefresh, jwtVerifyRefresh, hsec, hexp, huser, hfind]
  · simp [handleRefresh, jwtVerifyRefresh, hsec, hexp, huser, hfind]
  · simp [handleRefresh, jwtVerifyRefresh, hsec, hexp, huser, hfind]
  · simp [handleRefresh, jwtVerifyRefresh, hsec, hexp, huser, hfind]
  · simp [handleRefresh, jwtVerifyRefresh, hsec, hexp, huser, hfind]
  · intro rt2 now2 ip2 ua2 jti2
    by_cases hv : rt2.secret = refreshSecret ∧ now2 < rt2.exp
    · simp [handleRefresh, jwtVerifyRefresh, hv]
    · simp [handleRefresh, jwtVerifyRefresh, hv, refreshUnauthorized]

/-- Concrete instance of `refresh_reuse_revokes_all`: the only record with the
presented hash is expired (already rotated away and re-added scenario), so the
registry is nuked. -/
theorem refresh_reuse_revokes_all_witness :
    (({ payload := { sub := "u1", jti := "j1" }, secret := "rs", exp := 800 }
        : RefreshToken).secret = "rs") ∧
    ((10 : Nat) < 800) ∧
    ((fun s => if s = "u1" then some alice else none)
        ({ payload := { sub := "u1", jti := "j1" }, secret := "rs", exp := 800 }
          : RefreshToken).payload.sub = some alice) ∧
    (∀ t ∈ alice.refreshTokens,
      t.tokenHash = sha256hex (encodeRefreshToken
        { payload := { sub := "u1", jti := "j1" }, secret := "rs", exp := 800 })
        → ¬ (10 : Nat) < t.expiresAt) ∧
    (handleRefresh "rs" "as" 10
        (some { payload := { sub := "u1", jti := "j1" }, secret := "rs", exp := 800 })
        (fun s => if s = "u1" then some alice else none) "i" "a" "j2").status
      = 401 ∧
    (handleRefresh "rs" "as" 10
        (some { payload := { sub := "u1", jti := "j1" }, secret := "rs", exp := 800 })
        (fun s => if s = "u1" then some alice else none) "i" "a" "j2").savedUser
      = some { alice with refreshTokens := [] } := by
  have h := refresh_reuse_revokes_all "rs" "as" 10
    { payload := { sub := "u1", jti := "j1" }, secret := "rs", exp := 800 }
    (fun s => if s = "u1" then some alice else none) alice "i" "a" "j2"
    (by decide) (by decide) (by decide) (by decide)
  exact ⟨by decide, by decide, by decide, by decide, h.1, h.2.2.2.2.1⟩

/-- Claim C2: a successful refresh (presented hash matches an unexpired
record, hashes unique in the registry, and the freshly minted token hashes
differently) removes exactly that record and appends exactly one new record
with the new hash, the new expiry, and the new provenance; the count of
records is unchanged, the old hash is absent afterwards, and re-presenting the
same raw token against the saved state can never succeed again. -/
theorem refresh_rotation_exact (refreshSecret accessSecret : String)
    (now : Nat) (rt : RefreshToken) (findById : String → Option UserAccount)
    (user : UserAccount) (ip ua newJti : String)
    (hsec : rt.secret = refreshSecret) (hexp : now < rt.exp)
    (huser : findById rt.payload.sub = some user)
    (hfound : ∃ t ∈ user.refreshTokens,
        t.tokenHash = sha256hex (encodeRefreshToken rt) ∧ now < t.expiresAt)
    (huniq : (user.refreshTokens.filter
        (fun t => t.tokenHash == sha256hex (encodeRefreshToken rt))).length = 1)
    (hfresh : sha256hex (encodeRefreshToken
          (signRefreshToken refreshSecret now user newJti))
        ≠ sha256hex (encodeRefreshToken rt)) :
    ∃ saved : UserAccount,
      (handleRefresh refreshSecret accessSecret now (some rt) findById
          ip ua newJti).savedUser = some saved ∧
      (handleRefresh refreshSecret accessSecret now (some rt) findById
          ip ua newJti).status = 200 ∧
      (handleRefresh refreshSecret accessSecret now (some rt) findById
          ip ua newJti).ok = true ∧
      saved.refreshTokens
        = user.refreshTokens.filter
            (fun t => t.tokenHash != sha256hex (encodeRefreshToken rt)) ++
          [{ tokenHash := sha256hex (encodeRefreshToken
               (signRefreshToken refreshSecret now user newJti))
             expiresAt := now + REFRESH_TTL_MS
             ip := some ip, userAgent := some ua }] ∧
      saved.refreshTokens.length = user.refreshTokens.length ∧
      sha256hex (encodeRefreshToken rt)
        ∉ saved.refreshTokens.map RefreshTokenRecord.tokenHash ∧
      saved.refreshTokens.getLast?
        = some { tokenHash := sha256hex (encodeRefreshToken
                   (signRefreshToken refreshSecret now user newJti))
                 expiresAt := now + REFRESH_TTL_MS
                 ip := some ip, userAgent := some ua } ∧
      (∀ (now2 : Nat) (ip2 ua2 jti2 : String),
        (handleRefresh refreshSecret accessSecret now2 (some rt)
            (fun _ => some saved) ip2 ua2 jti2).status = 401) := by
  obtain ⟨t0, ht0, hhash, ht0exp⟩ := hfound
  have hfind : (user.refreshTokens.find?
      (fun t => t.tokenHash == sha256hex (encodeRefreshToken rt)
        && decide (now < t.expiresAt))).isSome := by
    rw [List.find?_isSome]
    exact ⟨t0, ht0, by simp [hhash, ht0exp]⟩
  obtain ⟨tf, htf⟩ := Option.isSome_iff_exists.mp hfind
  refine Exists.intro
    { user with
        refreshTokens :=
          List.filter
            (fun t => t.tokenHash != sha256hex (encodeRefreshToken rt))
            user.refreshTokens ++
          [{ tokenHash :=
               sha256hex (encodeRefreshToken
                 (signRefreshToken refreshSecret now user newJti))
             expiresAt := now + REFRESH_TTL_MS
             ip := some ip
             userAgent := some ua }] }
    ?_
  refine ⟨?_, ?_, ?_, ?_, ?_, ?_, ?_, ?_⟩
  · simp [handleRefresh, jwtVerifyRefresh, hsec, hexp, huser, htf]
  · simp [handleRefresh, jwtVerifyRefresh, hsec, hexp, huser, htf]
  · simp [handleRefresh, jwtVerifyRefresh, hsec, hexp, huser, htf]
  · rfl
  · have hsplit := length_filter_hash_split user.refreshTokens
      (sha256hex (encodeRefreshToken rt))
    rw [huniq] at hsplit
    simp only [List.length_append, List.length_cons, List.length_nil]
    omega
  · intro hmem
    simp only [List.map_append, List.mem_append, List.mem_map,
      List.mem_filter] at hmem
    rcases hmem with ⟨x, ⟨_, hne⟩, hx⟩ | h2
    · rw [hx] at hne
      simp at hne
    · simp at h2
      exact hfresh h2
  · simp
  · intro now2 ip2 ua2 jti2
    by_cases hv : rt.secret = refreshSecret ∧ now2 < rt.exp
    · have hfind2 : (List.find?
          (fun t => t.tokenHash == sha256hex (encodeRefreshToken rt)
            && decide (now2 < t.expiresAt))
          (user.refreshTokens.filter
            (fun t => t.tokenHash != sha256hex (encodeRefreshToken rt)) ++
           [{ tokenHash := sha256hex (encodeRefreshToken
                (signRefreshToken refreshSecret now user newJti))
              expiresAt := now + REFRESH_TTL_MS
              ip := some ip, userAgent := some ua }])) = none := by
        apply List.find?_eq_none.mpr
        intro x hx
        simp only [List.mem_append, List.mem_filter] at hx
        rcases hx with ⟨_, hne⟩ | hx
        · simp only [Bool.and_eq_true, beq_iff_eq, decide_eq_true_eq, not_and]
          intro heq
          rw [heq] at hne
          simp at hne
        · simp only [List.mem_singleton] at hx
          rw [hx]
          simp only [Bool.and_eq_true, beq_iff_eq, decide_eq_true_eq, not_and]
          intro heq
          exact absurd heq hfresh
      simp [handleRefresh, jwtVerifyRefresh, hv, hfind2]
    · simp [handleRefresh, jwtVerifyRefresh, hv, refreshUnauthorized]

/-- A sample presented refresh token for the rotation instance. -/
def rotToken : RefreshToken :=
  { payload := { sub := "u1", jti := "j1" }, secret := "rs", exp := 800 }

/-- A sample account holding exactly the unexpired record of `rotToken`. -/
def rotUser : UserAccount :=
  { alice with refreshTokens :=
      [{ tokenHash := sha256hex (encodeRefreshToken rotToken), expiresAt := 900
         ip := none, userAgent := none }] }

/-- Concrete instance of `refresh_rotation_exact`. -/
theorem refresh_rotation_exact_witness :
    rotToken.secret = "rs" ∧
    ((10 : Nat) < rotToken.exp) ∧
    ((fun s => if s = "u1" then some rotUser else none) rotToken.payload.sub
      = some rotUser) ∧
    (∃ t ∈ rotUser.refreshTokens,
        t.tokenHash = sha256hex (encodeRefreshToken rotToken)
          ∧ (10 : Nat) < t.expiresAt) ∧
    ((rotUser.refreshTokens.filter
        (fun t => t.tokenHash == sha256hex (encodeRefreshToken rotToken))).length
      = 1) ∧
    (sha256hex (encodeRefreshToken (signRefreshToken "rs" 10 rotUser "j2"))
      ≠ sha256hex (encodeRefreshToken rotToken)) ∧
    (∃ saved : UserAccount,
      (handleRefresh "rs" "as" 10 (some rotToken)
          (fun s => if s = "u1" then some rotUser else none)
          "i" "a" "j2").savedUser = some saved ∧
      (handleRefresh "rs" "as" 10 (some rotToken)
          (fun s => if s = "u1" then some rotUser else none)
          "i" "a" "j2").status = 200 ∧
      (handleRefresh "rs" "as" 10 (some rotToken)
          (fun s => if s = "u1" then some rotUser else none)
          "i" "a" "j2").ok = true ∧
      saved.refreshTokens
        = rotUser.refreshTokens.filter
            (fun t => t.tokenHash != sha256hex (encodeRefreshToken rotToken)) ++
          [{ tokenHash := sha256hex (encodeRefreshToken
               (signRefreshToken "rs" 10 rotUser "j2"))
             expiresAt := 10 + REFRESH_TTL_MS
             ip := some "i", userAgent := some "a" }] ∧
      saved.refreshTokens.length = rotUser.refreshTokens.length ∧
      sha256hex (encodeRefreshToken rotToken)
        ∉ saved.refreshTokens.map RefreshTokenRecord.tokenHash ∧
      saved.refreshTokens.getLast?
        = some { tokenHash := sha256hex (encodeRefreshToken
                   (signRefreshToken "rs" 10 rotUser "j2"))
                 expiresAt := 10 + REFRESH_TTL_MS
                 ip := some "i", userAgent := some "a" } ∧
      (∀ (now2 : Nat) (ip2 ua2 jti2 : String),
        (handleRefresh "rs" "as" now2 (some rotToken)
            (fun _ => some saved) ip2 ua2 jti2).status = 401)) :=
  ⟨rfl, by decide, by decide, by decide, by decide, by decide,
   refresh_rotation_exact "rs" "as" 10 rotToken
     (fun s => if s = "u1" then some rotUser else none) rotUser "i" "a" "j2"
     rfl (by decide) (by decide) (by decide) (by decide) (by decide)⟩

/-- Claim C8: for an authorized stream request (valid stream token bound to
the requested media, media located): a client Range is forwarded upstream and
an upstream 206 is mirrored with its Content-Range and Content-Length headers;
no client range yields the full body with status 200; and an upstream that is
neither ok nor 206 yields the 502 upstream-failure response. -/
theorem stream_range_mirroring (streamSecret accessSecret : String)
    (now now0 ttl : Nat) (uid id : String)
    (decode : String → Option AccessToken)
    (cookieToken : Option AccessToken) (authHeader : Option String)
    (findSong : String → Option Song) (song : Song)
    (fetchUrl : String → Option String → UpstreamResponse)
    (hexp : now < now0 + ttl * 1000)
    (huid : uid.isEmpty = false)
    (hsong : findSong id = some song)
    (hurl : song.url.isEmpty = false) :
    (∀ r cr cl,
      (fetchUrl song.url (some r)).status = 206 →
      (fetchUrl song.url (some r)).contentRange = some cr →
      (fetchUrl song.url (some r)).contentLength = some cl →
      handleStream streamSecret accessSecret now
          (some (signStreamToken streamSecret now0 uid id ttl))
          decode cookieToken authHeader findSong fetchUrl id (some r)
        = StreamResult.streamResp 206
            (streamHeaders (fetchUrl song.url (some r)))
            (fetchUrl song.url (some r)).body ∧
      ("Content-Range", cr) ∈ streamHeaders (fetchUrl song.url (some r)) ∧
      ("Content-Length", cl) ∈ streamHeaders (fetchUrl song.url (some r))) ∧
    ((fetchUrl song.url none).ok = true →
      handleStream streamSecret accessSecret now
          (some (signStreamToken streamSecret now0 uid id ttl))
          decode cookieToken authHeader findSong fetchUrl id none
        = StreamResult.streamResp 200
            (streamHeaders (fetchUrl song.url none))
            (fetchUrl song.url none).body) ∧
    (∀ ro : Option String,
      (fetchUrl song.url ro).ok = false →
      (fetchUrl song.url ro).status ≠ 206 →
      handleStream streamSecret accessSecret now
          (some (signStreamToken streamSecret now0 uid id ttl))
          decode cookieToken authHeader findSong fetchUrl id ro
        = StreamResult.errorResp 502 "Failed to fetch audio") := by
  refine ⟨?_, ?_, ?_⟩
  · intro r cr cl h206 hcr hcl
    refine ⟨?_, ?_, ?_⟩
    · simp [handleStream, streamAuth, streamServe, streamRelay,
        signStreamToken, jwtVerifyStream, hexp, huid, hsong, hurl, h206,
        streamStatus, hcr]
    · simp [streamHeaders, hcr, hcl]
    · simp [streamHeaders, hcr, hcl]
  · intro hok
    simp [handleStream, streamAuth, streamServe, streamRelay, signStreamToken,
      jwtVerifyStream, hexp, huid, hsong, hurl, hok, streamStatus]
  · intro ro hok h206
    simp [handleStream, streamAuth, streamServe, streamRelay, signStreamToken,
      jwtVerifyStream, hexp, huid, hsong, hurl, hok, h206]

/-- A sample upstream for the C8 instance: honours ranges with a 206 and a
Content-Range, serves 200 otherwise. -/
def demoFetch (u : String) (r : Option String) : UpstreamResponse :=
  match u, r with
  | _, some _ =>
    { ok := true, status := 206, contentType := some "audio/mpeg"
      contentLength := some "100", contentRange := some "bytes 0-99/1000"
      body := [7, 8] }
  | _, none =>
    { ok := true, status := 200, contentType := some "audio/mpeg"
      contentLength := some "1000", contentRange := none, body := [1, 2, 3] }

/-- Concrete instance of `stream_range_mirroring`. -/
theorem stream_range_mirroring_witness :
    ((500 : Nat) < 450 + 60 * 1000) ∧
    ("u1".isEmpty = false) ∧
    ((fun i => if i = "s1" then some demoSong else none) "s1" = some demoSong) ∧
    (demoSong.url.isEmpty = false) ∧
    (handleStream "ss" "as" 500 (some (signStreamToken "ss" 450 "u1" "s1" 60))
        (fun _ => none) none none
        (fun i => if i = "s1" then some demoSong else none) demoFetch
        "s1" (some "bytes=0-99")
      = StreamResult.streamResp 206
          (streamHeaders (demoFetch demoSong.url (some "bytes=0-99")))
          (demoFetch demoSong.url (some "bytes=0-99")).body ∧
     ("Content-Range", "bytes 0-99/1000")
        ∈ streamHeaders (demoFetch demoSong.url (some "bytes=0-99")) ∧
     ("Content-Length", "100")
        ∈ streamHeaders (demoFetch demoSong.url (some "bytes=0-99"))) ∧
    (handleStream "ss" "as" 500 (some (signStreamToken "ss" 450 "u1" "s1" 60))
        (fun _ => none) none none
        (fun i => if i = "s1" then some demoSong else none) demoFetch
        "s1" none
      = StreamResult.streamResp 200
          (streamHeaders (demoFetch demoSong.url none))
          (demoFetch demoSong.url none).body) :=
  ⟨by decide, by decide, by decide, by decide,
   (stream_range_mirroring "ss" "as" 500 450 60 "u1" "s1" (fun _ => none)
     none none (fun i => if i = "s1" then some demoSong else none) demoSong
     demoFetch (by decide) (by decide) (by decide) (by decide)).1
     "bytes=0-99" "bytes 0-99/1000" "100" (by decide) (by decide) (by decide),
   (stream_range_mirroring "ss" "as" 500 450 60 "u1" "s1" (fun _ => none)
     none none (fun i => if i = "s1" then some demoSong else none) demoSong
     demoFetch (by decide) (by decide) (by decide) (by decide)).2.1
     (by decide)⟩

/-- The keys rendered by the deselected song view: the backing fields are
gone. -/
theorem publicSongView_keys (s : Song) :
    (publicSongView s).map Prod.fst
      = ["_id", "title", "artist", "album", "cover", "uploadedBy"] := by
  simp [publicSongView, selectWithout, songObject]

/-- The keys rendered by the upload confirmation: the backing fields are
gone. -/
theorem uploadSongBody_keys (s : Song) :
    (uploadSongBody s).map Prod.fst
      = ["_id", "title", "artist", "album", "cover", "uploadedBy"] := by
  simp [uploadSongBody, songObject]

/-- Inversion for the relay: whenever `/stream/:id` answers with a byte
stream, those bytes are exactly the upstream fetch of the located song's
private url — the response carries no song metadata at all. -/
theorem handleStream_body_from_upstream (streamSecret accessSecret : String)
    (now : Nat) (queryToken : Option StreamToken)
    (decode : String → Option AccessToken)
    (cookieToken : Option AccessToken) (authHeader : Option String)
    (findSong : String → Option Song)
    (fetchUrl : String → Option String → UpstreamResponse)
    (id : String) (clientRange : Option String)
    (st : Nat) (hs : List (String × String)) (b : List Nat)
    (h : handleStream streamSecret accessSecret now queryToken decode
        cookieToken authHeader findSong fetchUrl id clientRange
      = StreamResult.streamResp st hs b) :
    ∃ song, findSong id = some song
      ∧ b = (fetchUrl song.url clientRange).body := by
  rcases hA : streamAuth streamSecret accessSecret now queryToken decode
      cookieToken authHeader id with userId | r
  · have h2 : streamServe findSong fetchUrl id clientRange userId
        = StreamResult.streamResp st hs b := by
      have hh : handleStream streamSecret accessSecret now queryToken decode
          cookieToken authHeader findSong fetchUrl id clientRange
          = streamServe findSong fetchUrl id clientRange userId := by
        unfold handleStream
        rw [hA]
      rw [← hh]
      exact h
    unfold streamServe at h2
    split at h2
    · exact StreamResult.noConfusion h2
    · rcases hf : findSong id with _ | song
      · simp only [hf] at h2
        exact StreamResult.noConfusion h2
      · simp only [hf] at h2
        split at h2
        · exact StreamResult.noConfusion h2
        · unfold streamRelay at h2
          split at h2
          · exact StreamResult.noConfusion h2
          · obtain ⟨hst, hhs, hb⟩ := StreamResult.streamResp.inj h2
            exact ⟨song, rfl, hb.symm⟩
  · have h2 : r = StreamResult.streamResp st hs b := by
      have hh : handleStream streamSecret accessSecret now queryToken decode
          cookieToken authHeader findSong fetchUrl id clientRange = r := by
        unfold handleStream
        rw [hA]
      rw [← hh]
      exact h
    exfalso
    unfold streamAuth at hA
    rcases queryToken with _ | tok
    · simp only [] at hA
      rcases hm : authMiddleware accessSecret now decode cookieToken
          authHeader with _ | u
      · simp only [hm] at hA
        obtain rfl := Sum.inr.inj hA
        exact StreamResult.noConfusion h2
      · simp only [hm] at hA
        exact Sum.noConfusion hA
    · simp only [] at hA
      rcases hv : jwtVerifyStream tok streamSecret now with _ | payload
      · simp only [hv] at hA
        obtain rfl := Sum.inr.inj hA
        exact StreamResult.noConfusion h2
      · simp only [hv] at hA
        by_cases hsid : payload.sid = id
        · rw [if_pos hsid] at hA
          exact Sum.noConfusion hA
        · rw [if_neg hsid] at hA
          obtain rfl := Sum.inr.inj hA
          exact StreamResult.noConfusion h2

/-- Claim C9: no client-facing media response — song list, search, album
view, upload confirmation, or the stream relay — carries the Song record's
private `url` or `publicId` fields; the relay serves only proxied upstream
bytes. -/
theorem media_responses_hide_backing (db : List Song) (q albumName : String)
    (newSong : Song) :
    (∀ fs ∈ listSongsBody db,
      "url" ∉ fs.map Prod.fst ∧ "publicId" ∉ fs.map Prod.fst) ∧
    (∀ fs ∈ searchSongsBody db q,
      "url" ∉ fs.map Prod.fst ∧ "publicId" ∉ fs.map Prod.fst) ∧
    (∀ body, albumSongsBody db albumName = some body →
      ∀ fs ∈ body,
        "url" ∉ fs.map Prod.fst ∧ "publicId" ∉ fs.map Prod.fst) ∧
    ("url" ∉ (uploadSongBody newSong).map Prod.fst ∧
      "publicId" ∉ (uploadSongBody newSong).map Prod.fst) ∧
    (∀ (streamSecret accessSecret : String) (now : Nat)
        (queryToken : Option StreamToken)
        (decode : String → Option AccessToken)
        (cookieToken : Option AccessToken) (authHeader : Option String)
        (findSong : String → Option Song)
        (fetchUrl : String → Option String → UpstreamResponse)
        (id : String) (clientRange : Option String)
        (st : Nat) (hs : List (String × String)) (b : List Nat),
      handleStream streamSecret accessSecret now queryToken decode
          cookieToken authHeader findSong fetchUrl id clientRange
        = StreamResult.streamResp st hs b →
      ∃ song, findSong id = some song
        ∧ b = (fetchUrl song.url clientRange).body) := by
  refine ⟨?_, ?_, ?_, ?_, ?_⟩
  · intro fs hfs
    simp only [listSongsBody, List.mem_map] at hfs
    obtain ⟨s, _, rfl⟩ := hfs
    rw [publicSongView_keys]
    constructor <;> decide
  · intro fs hfs
    simp only [searchSongsBody] at hfs
    split at hfs
    · simp at hfs
    · simp only [List.mem_map] at hfs
      obtain ⟨s, _, rfl⟩ := hfs
      rw [publicSongView_keys]
      constructor <;> decide
  · intro body hbody fs hfs
    simp only [albumSongsBody] at hbody
    split at hbody
    · exact Option.noConfusion hbody
    · obtain rfl := Option.some.inj hbody
      simp only [List.mem_map] at hfs
      obtain ⟨s, _, rfl⟩ := hfs
      rw [publicSongView_keys]
      constructor <;> decide
  · rw [uploadSongBody_keys]
    constructor <;> decide
  · intro streamSecret accessSecret now queryToken decode cookieToken
      authHeader findSong fetchUrl id clientRange st hs b h
    exact handleStream_body_from_upstream streamSecret accessSecret now
      queryToken decode cookieToken authHeader findSong fetchUrl id
      clientRange st hs b h

/-- Concrete instance of `media_responses_hide_backing` on a one-song
database. -/
theorem media_responses_hide_backing_witness :
    (∀ fs ∈ listSongsBody [demoSong],
      "url" ∉ fs.map Prod.fst ∧ "publicId" ∉ fs.map Prod.fst) ∧
    ("url" ∉ (uploadSongBody demoSong).map Prod.fst ∧
      "publicId" ∉ (uploadSongBody demoSong).map Prod.fst) :=
  ⟨(media_responses_hide_backing [demoSong] "tu" "Singles" demoSong).1,
   (media_responses_hide_backing [demoSong] "tu" "Singles" demoSong).2.2.2.1⟩

end AiMusic
